import Mathlib

/-!
Shallow embedding of `src/gdp_enrollment_scatter_html.py`.

The script is one linear pipeline: read `merged_clean.csv` into a pandas
data frame, coerce columns, choose the years to display, then render a
static (seaborn) and an interactive (plotly) scatter plot.

Modelling conventions:

* a pandas data frame read from CSV is a `RawDF`: an association list from
  column name to a column of `Cell`s;
* `pd.to_numeric(..., errors="coerce")` is `toNumeric : Cell → Option ℚ`;
  numeric text is modelled as `Cell.num`, while `Cell.str` stands for text
  that does not parse as a number, which pandas coerces to NaN;
* Python floats are modelled as exact rationals; the literal `0.00002`
  becomes `1 / 50000`;
* a NaN / pd.NA entry of a numeric column is `none : Option ℚ`;
* filesystem access is a `fileExists : Bool` argument to the loader, and
  the `print` warnings are returned alongside the prepared frame;
* the rendering libraries are modelled by the data handed to them: each
  static panel records its title, its point list (coordinates, hue, marker
  size) and its annotation list; the interactive renderer records the
  filtered rows paired with their computed marker sizes.
-/

deriving instance DecidableEq for Except

namespace GdpViz

/-- A cell of the raw CSV: missing (NaN), numeric, non-numeric text, or boolean. -/
inductive Cell where
  | null
  | num (q : ℚ)
  | str (s : String)
  | boolC (b : Bool)
deriving DecidableEq, Repr

/-- A raw pandas data frame: association list from column name to its column. -/
structure RawDF where
  cols : List (String × List Cell)
deriving DecidableEq

/-- `df.columns`: the column names of the frame. -/
def RawDF.columns (t : RawDF) : List String :=
  t.cols.map (fun p => p.1)

/-- `df[c]` when it may be absent: look the column up by name. -/
def RawDF.getCol (t : RawDF) (c : String) : Option (List Cell) :=
  t.cols.lookup c

/-- Number of rows of the frame (the length of its first column). -/
def RawDF.nRows (t : RawDF) : Nat :=
  match t.cols with
  | [] => 0
  | (_, col) :: _ => col.length

/-- `df.get(c, pd.Series())`: a missing column falls back to an empty series,
and assigning an empty series to a column of the frame aligns by index,
yielding NaN for every row. -/
def RawDF.getColOr (t : RawDF) (c : String) : List Cell :=
  match t.getCol c with
  | some col => col
  | none => List.replicate t.nRows Cell.null

/-- `pd.to_numeric(cell, errors="coerce")`: NaN and non-numeric text become
NaN, booleans become 1 or 0. -/
def toNumeric : Cell → Option ℚ
  | Cell.null => none
  | Cell.num q => some q
  | Cell.str _ => none
  | Cell.boolC b => some (if b then 1 else 0)

/-- `.astype("Int64")` on one coerced value: NaN becomes NA, an integral
value within the 64-bit signed range casts, and any other numeric value
(non-integral, or too large in magnitude) fails pandas' safe-cast check.
`none` of the outer `Option` is the raised `TypeError`. -/
def castInt64 (o : Option ℚ) : Option (Option Int) :=
  match o with
  | none => some none
  | some q =>
    if q.den = 1 ∧ -(2 ^ 63) ≤ q.num ∧ q.num < 2 ^ 63 then some (some q.num)
    else none

/-- `.astype("Int64")` over a whole coerced column: pandas raises — the
result is `none` — as soon as any value fails the safe cast, and otherwise
casts value-wise. -/
def astypeInt64 (col : List (Option ℚ)) : Option (List (Option Int)) :=
  col.mapM castInt64

/-- `.astype(bool)` on a raw cell: Python truthiness (NaN is truthy, a
non-zero number is truthy, non-empty text is truthy). -/
def cellToBool : Cell → Bool
  | Cell.null => true
  | Cell.num q => decide (q ≠ 0)
  | Cell.str s => decide (s ≠ "")
  | Cell.boolC b => b

/-- The loader's prepared frame: the typed columns the renderers consume.
`country` and `both_increase` stay absent when the raw frame lacks them. -/
structure PreparedDF where
  country : Option (List Cell)
  year : List (Option Int)
  gdp_numeric : List (Option ℚ)
  enrollment_numeric : List (Option ℚ)
  gdp_pct_change : List (Option ℚ)
  enrollment_pct_change : List (Option ℚ)
  both_increase : Option (List Bool)
deriving DecidableEq

/-- The ways `load_and_prepare` can raise. -/
inductive LoadError where
  | fileNotFound (path : String)
  | keyError (col : String)
  | typeError (msg : String)
deriving DecidableEq, Repr

/-- The seven column names the loader checks for. -/
def EXPECTED_COLUMNS : List String :=
  ["country", "year", "gdp", "enrollment", "gdp_pct_change",
   "enrollment_pct_change", "both_increase"]

/-- The warning lines the loader prints: one per expected column that is
absent from the raw frame (inner quoting of the Python message elided). -/
def missingWarnings (t : RawDF) : List String :=
  (EXPECTED_COLUMNS.filter (fun c => !(t.columns.contains c))).map
    (fun c => "Warning: column " ++ c ++ " not present in merged file.")

/-- The column coercions of the loader once the `year` column has been
resolved and safely cast: the four numeric columns go through `to_numeric`
with an empty-series fallback, and `both_increase` through `astype(bool)`
only when present. -/
def prepareFrame (t : RawDF) (yearCol : List (Option Int)) : PreparedDF :=
  { country := t.getCol "country"
    year := yearCol
    gdp_numeric := (t.getColOr "gdp").map toNumeric
    enrollment_numeric := (t.getColOr "enrollment").map toNumeric
    gdp_pct_change := (t.getColOr "gdp_pct_change").map toNumeric
    enrollment_pct_change := (t.getColOr "enrollment_pct_change").map toNumeric
    both_increase := (t.getCol "both_increase").map
      (fun col => col.map cellToBool) }

/-- `load_and_prepare(path)`.  The filesystem check is the `fileExists`
argument; the parsed CSV is `t`.  Returns the printed warnings together
with the prepared frame.  Two failure points sit in the `year` coercion of
line 41: the source writes `df["year"] = pd.to_numeric(df["year"], ...)`
without a fallback, so a frame without a `year` column raises `KeyError`
after the warnings are printed, and the trailing `.astype("Int64")` raises
`TypeError` when some coerced year value fails the safe cast. -/
def load_and_prepare (path : String) (fileExists : Bool) (t : RawDF) :
    Except LoadError (List String × PreparedDF) :=
  if !fileExists then
    Except.error (LoadError.fileNotFound path)
  else
    match t.getCol "year" with
    | none => Except.error (LoadError.keyError "year")
    | some yearRaw =>
      match astypeInt64 (yearRaw.map toNumeric) with
      | none =>
        Except.error (LoadError.typeError
          "cannot safely cast non-equivalent float64 to int64")
      | some yearCol => Except.ok (missingWarnings t, prepareFrame t yearCol)

/-- `MAX_PANELS = 6`. -/
def MAX_PANELS : Nat := 6

/-- `SIZE_SCALE = 0.00002`, as an exact rational. -/
def SIZE_SCALE : ℚ := 1 / 50000

/-- Python truthiness of the `YEARS` configuration constant: `None` and the
empty list are both falsy. -/
def pyTruthy : Option (List Int) → Bool
  | none => false
  | some l => !l.isEmpty

/-- `sorted(df["year"].dropna().unique())`: the distinct non-null year
values, ascending. -/
def uniqueSorted (yearCol : List (Option Int)) : List Int :=
  ((yearCol.filterMap id).dedup).insertionSort (· ≤ ·)

/-- `sorted(yrs)[-MAX_PANELS:]`: the auto-selection branch keeps the last
`MAX_PANELS` entries of the ascending sort. -/
def autoSelect (yrs : List Int) : List Int :=
  let s := yrs.insertionSort (· ≤ ·)
  s.drop (s.length - MAX_PANELS)

/-- `choose_years(df)`, with the module constant `YEARS` passed explicitly
and the frame represented by its `year` column. -/
def choose_years (YEARS : Option (List Int)) (yearCol : List (Option Int)) :
    Except String (List Int) :=
  let yrs := uniqueSorted yearCol
  if pyTruthy YEARS then
    let use := (YEARS.getD []).filter (fun y => yrs.contains y)
    if use.isEmpty then
      Except.error "No requested YEARS are present in the data."
    else
      Except.ok use
  else
    Except.ok (autoSelect yrs)

/-- One row of the prepared frame as the renderers see it. -/
structure Row where
  country : Cell
  year : Option Int
  gdp_numeric : Option ℚ
  gdp_pct_change : Option ℚ
  enrollment_pct_change : Option ℚ
  both_increase : Bool
deriving DecidableEq

/-- `str(row.get("country",""))`: the text placed by an annotation. -/
def cellStr : Cell → String
  | Cell.null => "nan"
  | Cell.num q => toString q
  | Cell.str s => s
  | Cell.boolC b => if b then "True" else "False"

/-- `(sub["gdp_numeric"].fillna(0).abs() * SIZE_SCALE).clip(lower=10, upper=400)`
applied to one row: the static marker size. -/
def staticSize (r : Row) : ℚ :=
  min 400 (max 10 (|r.gdp_numeric.getD 0| * SIZE_SCALE))

/-- `sub.assign(dist = (x.fillna(0)**2 + y.fillna(0)**2)**0.5)`, keeping the
square: the source sorts on the square root of this value, and the square
root is strictly monotone, so ordering rows by `distSq` is ordering them by
the source's Euclidean distance. -/
def distSq (r : Row) : ℚ :=
  (r.gdp_pct_change.getD 0) ^ 2 + (r.enrollment_pct_change.getD 0) ^ 2

/-- The descending-distance order used by `sub.sort_values("dist", ascending=False)`. -/
def distGE (a b : Row) : Prop :=
  distSq b ≤ distSq a

instance : DecidableRel distGE := fun a b =>
  inferInstanceAs (Decidable (distSq b ≤ distSq a))

instance : IsTotal Row distGE :=
  ⟨fun a b => le_total (distSq b) (distSq a)⟩

instance : IsTrans Row distGE :=
  ⟨fun _ _ _ h1 h2 => le_trans h2 h1⟩

/-- `sub.sort_values("dist", ascending=False)`: the per-panel rows in
descending distance order. -/
def rankedRows (sub : List Row) : List Row :=
  sub.insertionSort distGE

/-- The annotation a row contributes: its country name at its point
coordinates, or nothing when either percent-change value is null
(the `continue` branch). -/
def annotationOf (r : Row) : Option (String × ℚ × ℚ) :=
  match r.gdp_pct_change, r.enrollment_pct_change with
  | some x, some y => some (cellStr r.country, x, y)
  | _, _ => none

/-- `.head(5)` of the descending sort, then the annotation loop. -/
def annotateTop (sub : List Row) : List (String × ℚ × ℚ) :=
  ((rankedRows sub).take 5).filterMap annotationOf

/-- One plotted point of a static panel: coordinates, hue and marker size
as handed to `sns.scatterplot`. -/
structure PanelPoint where
  x : Option ℚ
  y : Option ℚ
  hue : Bool
  size : ℚ
deriving DecidableEq

/-- One panel of the static figure. -/
structure Panel where
  title : String
  points : List PanelPoint
  annotations : List (String × ℚ × ℚ)
deriving DecidableEq

/-- The body of the per-year loop of `make_static_plot`: filter the frame to
the year; an empty subset yields a blank panel titled `"<year> (no data)"`,
otherwise the subset is scattered and its top outliers annotated. -/
def renderPanel (df : List Row) (year : Int) : Panel :=
  let sub := df.filter (fun r => r.year == some year)
  if sub.isEmpty then
    { title := toString year ++ " (no data)", points := [], annotations := [] }
  else
    { title := toString year
      points := sub.map (fun r =>
        { x := r.gdp_pct_change
          y := r.enrollment_pct_change
          hue := r.both_increase
          size := staticSize r })
      annotations := annotateTop sub }

/-- `make_static_plot(df, years, out_png)`: one panel per selected year, in
order (the grid layout and the file write are presentation only). -/
def make_static_plot (df : List Row) (years : List Int) : List Panel :=
  years.map (renderPanel df)

/-- `15 + 85 * ((sub["gdp_numeric"].fillna(min_g) - min_g) / (max_g - min_g))`
applied to one cell. -/
def rescaleSize (min_g max_g : ℚ) (o : Option ℚ) : ℚ :=
  15 + 85 * ((o.getD min_g) - min_g) / (max_g - min_g)

/-- The `sub["size"]` computation of `make_interactive_plot`: drop nulls; if
none remain every size is 25; if the non-null minimum and maximum differ,
rescale linearly into [15, 100] (nulls filled with the minimum); otherwise
every size is 35. -/
def interactiveSizes (gdpCol : List (Option ℚ)) : List ℚ :=
  match gdpCol.filterMap id with
  | [] => gdpCol.map (fun _ => 25)
  | g :: gs =>
    let min_g := gs.foldl min g
    let max_g := gs.foldl max g
    if min_g < max_g then
      gdpCol.map (rescaleSize min_g max_g)
    else
      gdpCol.map (fun _ => 35)

/-- `make_interactive_plot(df, years, out_html)`: filter the frame to the
selected years (`isin`: a null year matches nothing) and pair each kept row
with its computed marker size; the plotly figure and the file write are
presentation only. -/
def make_interactive_plot (df : List Row) (years : List Int) : List (Row × ℚ) :=
  let sub := df.filter (fun r =>
    match r.year with
    | some y => years.contains y
    | none => false)
  sub.zip (interactiveSizes (sub.map (fun r => r.gdp_numeric)))

/-! ### Concrete rows used by witnesses and counterexamples -/

/-- A 2020 row with every numeric field null. -/
def exNullRow : Row :=
  { country := Cell.null, year := some 2020, gdp_numeric := none,
    gdp_pct_change := none, enrollment_pct_change := none, both_increase := false }

/-- A 2020 row at percent-change point (3, 4). -/
def exRow34 : Row :=
  { country := Cell.str "A", year := some 2020, gdp_numeric := none,
    gdp_pct_change := some 3, enrollment_pct_change := some 4, both_increase := true }

/-- A 2020 row at percent-change point (1, 1). -/
def exRow11 : Row :=
  { country := Cell.str "B", year := some 2020, gdp_numeric := none,
    gdp_pct_change := some 1, enrollment_pct_change := some 1, both_increase := false }

/-- A 2020 row with gdp_numeric 0. -/
def exZeroRow : Row :=
  { country := Cell.str "C", year := some 2020, gdp_numeric := some 0,
    gdp_pct_change := some 1, enrollment_pct_change := some 1, both_increase := false }

/-- A 2020 row with gdp_numeric 100. -/
def exHundredRow : Row :=
  { country := Cell.str "D", year := some 2020, gdp_numeric := some 100,
    gdp_pct_change := some 2, enrollment_pct_change := some 2, both_increase := true }

/-- The rational 2019.5 = 4039/2, a year value `astype("Int64")` cannot
safely cast. -/
def q20195 : ℚ := ⟨4039, 2, by norm_num, by norm_num⟩

/-! ### Helper lemmas -/

theorem getCol_eq_none_iff (t : RawDF) (c : String) :
    t.getCol c = none ↔ c ∉ t.columns := by
  simp only [RawDF.getCol, RawDF.columns, List.lookup_eq_none_iff, List.mem_map,
    bne_iff_ne, ne_eq]
  constructor
  · rintro h ⟨p, hp, rfl⟩
    exact h p hp rfl
  · intro h p hp hc
    exact h ⟨p, hp, hc.symm⟩

theorem mem_uniqueSorted {yearCol : List (Option Int)} {y : Int} :
    y ∈ uniqueSorted yearCol ↔ some y ∈ yearCol := by
  simp [uniqueSorted, List.mem_insertionSort, List.mem_dedup, List.mem_filterMap]

theorem sorted_uniqueSorted (yearCol : List (Option Int)) :
    (uniqueSorted yearCol).Sorted (· ≤ ·) :=
  List.sorted_insertionSort _ _

theorem nodup_uniqueSorted (yearCol : List (Option Int)) :
    (uniqueSorted yearCol).Nodup :=
  ((List.perm_insertionSort _ _).nodup_iff).mpr (List.nodup_dedup _)

theorem pairwiseLT_uniqueSorted (yearCol : List (Option Int)) :
    (uniqueSorted yearCol).Pairwise (· < ·) :=
  ((sorted_uniqueSorted yearCol).and (nodup_uniqueSorted yearCol)).imp
    (fun h => lt_of_le_of_ne h.1 h.2)

theorem autoSelect_uniqueSorted (yearCol : List (Option Int)) :
    autoSelect (uniqueSorted yearCol) =
      (uniqueSorted yearCol).drop ((uniqueSorted yearCol).length - MAX_PANELS) := by
  simp only [autoSelect]
  rw [(sorted_uniqueSorted yearCol).insertionSort_eq]

theorem autoSelect_subset (yrs : List Int) : ∀ y ∈ autoSelect yrs, y ∈ yrs := by
  intro y hy
  simp only [autoSelect] at hy
  exact (List.mem_insertionSort _).mp (List.drop_subset _ _ hy)

theorem pairwise_take_drop {α : Type} {R : α → α → Prop} {l : List α}
    (h : l.Pairwise R) (n : Nat) :
    ∀ x ∈ l.take n, ∀ y ∈ l.drop n, R x y := by
  have h2 : (l.take n ++ l.drop n).Pairwise R := by
    rw [List.take_append_drop]; exact h
  exact (List.pairwise_append.mp h2).2.2

theorem foldl_min_le (gs : List ℚ) (g : ℚ) : ∀ x ∈ g :: gs, gs.foldl min g ≤ x := by
  induction gs generalizing g with
  | nil =>
    intro x hx
    rw [List.mem_singleton] at hx
    simp [hx]
  | cons b t ih =>
    intro x hx
    simp only [List.foldl_cons]
    rcases List.mem_cons.mp hx with rfl | hx'
    · exact le_trans (ih (min x b) (min x b) (List.mem_cons_self _ _)) (min_le_left _ _)
    · rcases List.mem_cons.mp hx' with rfl | hx''
      · exact le_trans (ih (min g x) (min g x) (List.mem_cons_self _ _)) (min_le_right _ _)
      · exact ih (min g b) x (List.mem_cons_of_mem _ hx'')

theorem le_foldl_max (gs : List ℚ) (g : ℚ) : ∀ x ∈ g :: gs, x ≤ gs.foldl max g := by
  induction gs generalizing g with
  | nil =>
    intro x hx
    rw [List.mem_singleton] at hx
    simp [hx]
  | cons b t ih =>
    intro x hx
    simp only [List.foldl_cons]
    rcases List.mem_cons.mp hx with rfl | hx'
    · exact le_trans (le_max_left _ _) (ih (max x b) (max x b) (List.mem_cons_self _ _))
    · rcases List.mem_cons.mp hx' with rfl | hx''
      · exact le_trans (le_max_right _ _) (ih (max g x) (max g x) (List.mem_cons_self _ _))
      · exact ih (max g b) x (List.mem_cons_of_mem _ hx'')

theorem foldl_min_const (gs : List ℚ) (v : ℚ) (h : ∀ x ∈ gs, x = v) :
    gs.foldl min v = v := by
  induction gs with
  | nil => rfl
  | cons b t ih =>
    have hb : b = v := h b (List.mem_cons_self _ _)
    rw [List.foldl_cons, hb, min_self]
    exact ih (fun x hx => h x (List.mem_cons_of_mem _ hx))

theorem foldl_max_const (gs : List ℚ) (v : ℚ) (h : ∀ x ∈ gs, x = v) :
    gs.foldl max v = v := by
  induction gs with
  | nil => rfl
  | cons b t ih =>
    have hb : b = v := h b (List.mem_cons_self _ _)
    rw [List.foldl_cons, hb, max_self]
    exact ih (fun x hx => h x (List.mem_cons_of_mem _ hx))

theorem interactiveSizes_of_empty (gdpCol : List (Option ℚ))
    (h : gdpCol.filterMap id = []) :
    interactiveSizes gdpCol = gdpCol.map (fun _ => 25) := by
  unfold interactiveSizes
  rw [h]

theorem interactiveSizes_of_rescale (gdpCol : List (Option ℚ)) (g : ℚ) (gs : List ℚ)
    (h : gdpCol.filterMap id = g :: gs) (hlt : gs.foldl min g < gs.foldl max g) :
    interactiveSizes gdpCol =
      gdpCol.map (rescaleSize (gs.foldl min g) (gs.foldl max g)) := by
  unfold interactiveSizes
  rw [h]
  simp [hlt]

theorem interactiveSizes_of_flat (gdpCol : List (Option ℚ)) (g : ℚ) (gs : List ℚ)
    (h : gdpCol.filterMap id = g :: gs)
    (hnlt : ¬ gs.foldl min g < gs.foldl max g) :
    interactiveSizes gdpCol = gdpCol.map (fun _ => 35) := by
  unfold interactiveSizes
  rw [h]
  simp [hnlt]

theorem rescaleSize_none (min_g max_g : ℚ) : rescaleSize min_g max_g none = 15 := by
  simp [rescaleSize]

theorem rescaleSize_bounds (min_g max_g : ℚ) (hlt : min_g < max_g) (o : Option ℚ)
    (ho : ∀ x, o = some x → min_g ≤ x ∧ x ≤ max_g) :
    15 ≤ rescaleSize min_g max_g o ∧ rescaleSize min_g max_g o ≤ 100 := by
  have hd : 0 < max_g - min_g := sub_pos.mpr hlt
  cases o with
  | none =>
    rw [rescaleSize_none]
    norm_num
  | some x =>
    obtain ⟨h1, h2⟩ := ho x rfl
    have t0 : 0 ≤ (x - min_g) / (max_g - min_g) := by
      apply div_nonneg
      · linarith
      · exact le_of_lt hd
    have t1 : (x - min_g) / (max_g - min_g) ≤ 1 := by
      rw [div_le_one hd]
      linarith
    unfold rescaleSize
    simp only [Option.getD_some]
    rw [mul_div_assoc]
    constructor
    · nlinarith
    · nlinarith

theorem staticSize_bounds (r : Row) : 10 ≤ staticSize r ∧ staticSize r ≤ 400 := by
  unfold staticSize
  exact ⟨le_min (by norm_num) (le_max_left _ _), min_le_left _ _⟩

theorem mem_zip_map_self {α β : Type} (l : List α) (f : α → β) (p : α × β)
    (hp : p ∈ l.zip (l.map f)) : p.2 = f p.1 := by
  induction l with
  | nil => simp at hp
  | cons a t ih =>
    rw [List.map_cons, List.zip_cons_cons] at hp
    rcases List.mem_cons.mp hp with rfl | hp'
    · rfl
    · exact ih hp'

theorem choose_years_some_unfold (ys : List Int) (yearCol : List (Option Int))
    (hne : ys ≠ []) :
    choose_years (some ys) yearCol =
      if (ys.filter (fun y => (uniqueSorted yearCol).contains y)).isEmpty then
        Except.error "No requested YEARS are present in the data."
      else
        Except.ok (ys.filter (fun y => (uniqueSorted yearCol).contains y)) := by
  have htr : pyTruthy (some ys) = true := by
    simp [pyTruthy, hne]
  unfold choose_years
  split
  · rfl
  · next hfalse => exact absurd htr hfalse

/-! ### Claim theorems -/

/-- C1, counterexample: the claim says the loader fails only when the file is
absent, every missing expected column producing merely a warning.  But on an
existing file whose CSV has a `country` column and no `year` column, the
unguarded `df["year"] = pd.to_numeric(df["year"], ...)` raises `KeyError`:
the loader fails although the file exists. -/
theorem load_missing_year_fails :
    load_and_prepare "merged_clean.csv" true
        { cols := [("country", [Cell.str "A"])] } =
      Except.error (LoadError.keyError "year") := by
  decide

/-- C1, amended: the loader fails exactly when the file is absent, when the
`year` column is absent (a `KeyError` raised after the warnings print), or
when some coerced `year` value fails the `astype("Int64")` safe cast (a
`TypeError`, likewise after the warnings); in every other case it succeeds,
printing exactly one warning per missing expected column. -/
theorem load_ok_iff_file_and_year (path : String) (t : RawDF) :
    load_and_prepare path false t = Except.error (LoadError.fileNotFound path) ∧
    ("year" ∉ t.columns →
      load_and_prepare path true t = Except.error (LoadError.keyError "year")) ∧
    (∀ col, t.getCol "year" = some col →
      (astypeInt64 (col.map toNumeric) = none →
        load_and_prepare path true t =
          Except.error (LoadError.typeError
            "cannot safely cast non-equivalent float64 to int64")) ∧
      (∀ yearCol, astypeInt64 (col.map toNumeric) = some yearCol →
        load_and_prepare path true t =
          Except.ok (missingWarnings t, prepareFrame t yearCol))) := by
  refine ⟨rfl, ?_, ?_⟩
  · intro h
    have hn : t.getCol "year" = none := (getCol_eq_none_iff t "year").mpr h
    simp [load_and_prepare, hn]
  · intro col hcol
    constructor
    · intro hcast
      simp [load_and_prepare, hcol, hcast]
    · intro yearCol hcast
      simp [load_and_prepare, hcol, hcast]

/-- C1, witness: a frame whose `year` column holds the integral value 2019
loads successfully, warning about the six other expected columns, while a
frame whose `year` column holds 2019.5 raises the safe-cast error even
though the file exists and the column is present. -/
theorem load_ok_iff_file_and_year_witness :
    load_and_prepare "merged_clean.csv" true { cols := [("year", [Cell.num 2019])] } =
      Except.ok (missingWarnings { cols := [("year", [Cell.num 2019])] },
        prepareFrame { cols := [("year", [Cell.num 2019])] } [some 2019]) ∧
    load_and_prepare "merged_clean.csv" true { cols := [("year", [Cell.num q20195])] } =
      Except.error (LoadError.typeError
        "cannot safely cast non-equivalent float64 to int64") :=
  ⟨((load_ok_iff_file_and_year "merged_clean.csv"
        { cols := [("year", [Cell.num 2019])] }).2.2 [Cell.num 2019]
      (by decide)).2 [some 2019] (by decide),
    ((load_ok_iff_file_and_year "merged_clean.csv"
        { cols := [("year", [Cell.num q20195])] }).2.2 [Cell.num q20195]
      (by decide)).1 (by decide)⟩

/-- C2: with a non-empty explicit `YEARS` list, `choose_years` errors exactly
when no listed year occurs in the data, and otherwise returns the sublist of
the explicit list whose members occur as non-null year values, in the
explicit list's order. -/
theorem choose_years_explicit_filter (ys : List Int) (yearCol : List (Option Int))
    (hne : ys ≠ []) :
    (ys.filter (fun y => (uniqueSorted yearCol).contains y) = [] →
      choose_years (some ys) yearCol =
        Except.error "No requested YEARS are present in the data.") ∧
    (ys.filter (fun y => (uniqueSorted yearCol).contains y) ≠ [] →
      choose_years (some ys) yearCol =
        Except.ok (ys.filter (fun y => (uniqueSorted yearCol).contains y))) ∧
    ys.filter (fun y => (uniqueSorted yearCol).contains y) =
      ys.filter (fun y => yearCol.contains (some y)) := by
  refine ⟨?_, ?_, ?_⟩
  · intro h
    rw [choose_years_some_unfold ys yearCol hne, h]
    rfl
  · intro h
    rw [choose_years_some_unfold ys yearCol hne,
      if_neg (fun hc => h (List.isEmpty_iff.mp hc))]
  · apply List.filter_congr
    intro y _
    simp only [List.elem_eq_mem]
    exact decide_eq_decide.mpr mem_uniqueSorted

/-- C9: an empty explicit `YEARS` list is falsy in Python, so `choose_years`
with `YEARS = []` does not raise; it behaves exactly like the auto-selection
taken when no list is supplied. -/
theorem choose_years_empty_list_is_auto (yearCol : List (Option Int)) :
    choose_years (some []) yearCol = choose_years none yearCol ∧
    choose_years (some []) yearCol =
      Except.ok (autoSelect (uniqueSorted yearCol)) :=
  ⟨rfl, rfl⟩

/-- C8: every year returned by `choose_years`, under any configuration,
occurs as a non-null value of the year column. -/
theorem choose_years_subset_source (YEARS : Option (List Int))
    (yearCol : List (Option Int)) (r : List Int)
    (h : choose_years YEARS yearCol = Except.ok r) :
    ∀ y ∈ r, some y ∈ yearCol := by
  intro y hy
  simp only [choose_years] at h
  split at h
  · split at h
    · exact absurd h (by simp)
    · rw [Except.ok.injEq] at h
      subst h
      have hc := List.of_mem_filter hy
      exact mem_uniqueSorted.mp (List.elem_iff.mp hc)
  · rw [Except.ok.injEq] at h
    subst h
    exact mem_uniqueSorted.mp (autoSelect_subset _ y hy)

/-- C8, witness: on a table containing only year 2019 the auto-selection
returns `[2019]`, and 2019 indeed occurs in the source column. -/
theorem choose_years_subset_source_witness :
    (some (2019 : Int)) ∈ [some (2019 : Int)] :=
  choose_years_subset_source none [some 2019] [2019] (by decide) 2019 (by decide)

/-- C2, witness: the explicit list `[2019, 2099]` on data containing only
2019 yields `[2019]`. -/
theorem choose_years_explicit_filter_witness :
    choose_years (some [2019, 2099]) [some (2019 : Int)] = Except.ok [2019] :=
  ((choose_years_explicit_filter [2019, 2099] [some 2019] (by decide)).2.1
    (by decide)).trans (by decide)

/-- C3: with no explicit list, `choose_years` returns the `MAX_PANELS` most
recent distinct years present (all of them when at most `MAX_PANELS` exist),
in strictly ascending order: the result is sorted, has `min MAX_PANELS d`
elements for `d` distinct years, draws only years present in the column, and
every present year left out is smaller than every year kept. -/
theorem choose_years_auto_recent (yearCol : List (Option Int)) :
    choose_years none yearCol = Except.ok (autoSelect (uniqueSorted yearCol)) ∧
    (autoSelect (uniqueSorted yearCol)).Sorted (· < ·) ∧
    (autoSelect (uniqueSorted yearCol)).length =
      min MAX_PANELS (uniqueSorted yearCol).length ∧
    (∀ y ∈ autoSelect (uniqueSorted yearCol), some y ∈ yearCol) ∧
    (∀ y : Int, some y ∈ yearCol → y ∉ autoSelect (uniqueSorted yearCol) →
      ∀ z ∈ autoSelect (uniqueSorted yearCol), y < z) ∧
    ((uniqueSorted yearCol).length ≤ MAX_PANELS →
      ∀ y : Int, some y ∈ yearCol → y ∈ autoSelect (uniqueSorted yearCol)) := by
  have hdrop := autoSelect_uniqueSorted yearCol
  have hpw := pairwiseLT_uniqueSorted yearCol
  refine ⟨rfl, ?_, ?_, ?_, ?_, ?_⟩
  · rw [hdrop]
    exact List.Pairwise.sublist (List.drop_sublist _ _) hpw
  · rw [hdrop, List.length_drop]
    simp only [MAX_PANELS]
    omega
  · intro y hy
    rw [hdrop] at hy
    exact mem_uniqueSorted.mp (List.drop_subset _ _ hy)
  · intro y hysrc hynotin z hz
    rw [hdrop] at hynotin hz
    have hyd : y ∈ uniqueSorted yearCol := mem_uniqueSorted.mpr hysrc
    have hsplit : y ∈ (uniqueSorted yearCol).take
          ((uniqueSorted yearCol).length - MAX_PANELS) ++
        (uniqueSorted yearCol).drop ((uniqueSorted yearCol).length - MAX_PANELS) := by
      rw [List.take_append_drop]
      exact hyd
    rcases List.mem_append.mp hsplit with htake | hdroppart
    · exact pairwise_take_drop hpw _ y htake z hz
    · exact absurd hdroppart hynotin
  · intro hlen y hysrc
    rw [hdrop, Nat.sub_eq_zero_of_le hlen, List.drop_zero]
    exact mem_uniqueSorted.mpr hysrc

/-- C3, witness: with eight entries holding seven distinct years and one
null, auto-selection keeps the six most recent; 2010 is present, left out,
and smaller than the kept year 2011. -/
theorem choose_years_auto_recent_witness :
    choose_years none [some 2010, some 2011, some 2012, some 2013, some 2014,
        some 2015, some 2016, none] =
      Except.ok (autoSelect (uniqueSorted [some 2010, some 2011, some 2012,
        some 2013, some 2014, some 2015, some 2016, none])) ∧
    (2010 : Int) < 2011 :=
  ⟨(choose_years_auto_recent [some 2010, some 2011, some 2012, some 2013,
      some 2014, some 2015, some 2016, none]).1,
    (choose_years_auto_recent [some 2010, some 2011, some 2012, some 2013,
      some 2014, some 2015, some 2016, none]).2.2.2.2.1 2010 (by decide)
      (by decide) 2011 (by decide)⟩

/-- C4: in a static panel every marker size is `|gdp_numeric|` (null as 0)
times `SIZE_SCALE`, clamped into [10, 400]; hence every size lies in that
range, and a null gdp gives size exactly 10. -/
theorem static_size_clamped (df : List Row) (year : Int) :
    (∀ pt ∈ (renderPanel df year).points, 10 ≤ pt.size ∧ pt.size ≤ 400) ∧
    (∀ r ∈ df.filter (fun r => r.year == some year),
      ({ x := r.gdp_pct_change, y := r.enrollment_pct_change,
         hue := r.both_increase,
         size := min 400 (max 10 (|r.gdp_numeric.getD 0| * SIZE_SCALE)) } :
        PanelPoint) ∈ (renderPanel df year).points) ∧
    (∀ r : Row, r.gdp_numeric = none → staticSize r = 10) := by
  refine ⟨?_, ?_, ?_⟩
  · intro pt hpt
    simp only [renderPanel] at hpt
    split at hpt
    · simp at hpt
    · obtain ⟨r, _, rfl⟩ := List.mem_map.mp hpt
      exact staticSize_bounds r
  · intro r hr
    have hsub : df.filter (fun r => r.year == some year) ≠ [] := by
      intro hnil
      rw [hnil] at hr
      exact absurd hr (List.not_mem_nil r)
    simp only [renderPanel]
    rw [if_neg (fun hc => hsub (List.isEmpty_iff.mp hc))]
    exact List.mem_map_of_mem _ hr
  · intro r h
    unfold staticSize
    rw [h]
    norm_num

/-- C4, witness: a concrete panel point has its size within [10, 400], and a
null-gdp row gets size exactly 10. -/
theorem static_size_clamped_witness :
    ((10 : ℚ) ≤ 10 ∧ (10 : ℚ) ≤ 400) ∧ staticSize exNullRow = 10 :=
  ⟨(static_size_clamped [exRow34] 2020).1
      { x := some 3, y := some 4, hue := true, size := 10 }
      (by norm_num [renderPanel, exRow34, staticSize, SIZE_SCALE]),
    (static_size_clamped [] 0).2.2 exNullRow rfl⟩

/-- C5: a selected year whose per-year subset is empty yields a panel titled
`"<year> (no data)"` with no plotted points and no annotations, and the
static renderer still produces one panel per selected year. -/
theorem static_empty_year_panel (df : List Row) (years : List Int) (year : Int)
    (h : df.filter (fun r => r.year == some year) = []) :
    renderPanel df year =
      { title := toString year ++ " (no data)", points := [], annotations := [] } ∧
    (make_static_plot df years).length = years.length ∧
    make_static_plot df years = years.map (renderPanel df) := by
  refine ⟨?_, ?_, rfl⟩
  · simp [renderPanel, h]
  · simp [make_static_plot]

/-- C5, witness: on an empty frame the 2020 panel is the no-data panel and a
two-year selection still renders two panels. -/
theorem static_empty_year_panel_witness :
    renderPanel [] 2020 =
      { title := "2020 (no data)", points := [], annotations := [] } ∧
    (make_static_plot [] [2020, 2021]).length = 2 :=
  ⟨((static_empty_year_panel [] [2020, 2021] 2020 rfl).1).trans (by decide),
    ((static_empty_year_panel [] [2020, 2021] 2020 rfl).2.1).trans (by decide)⟩

/-- C6: per panel, rows rank for annotation by distance from the origin with
nulls as zero (the source sorts on the Euclidean square root; ranking by the
squared distance `distSq` is the same ranking since the square root is
strictly monotone); at most 5 rows are annotated, every annotation comes
from a row of the panel whose two percent-changes are non-null, each of the
five kept rows dominates every dropped row in distance, and the (3,4) row
(distance 5, squared 25) ranks above the (1,1) row (distance about 1.41,
squared 2). -/
theorem annotate_top_outliers (sub : List Row) :
    (annotateTop sub).length ≤ 5 ∧
    (∀ a ∈ annotateTop sub, ∃ r ∈ sub,
      r.gdp_pct_change = some a.2.1 ∧ r.enrollment_pct_change = some a.2.2 ∧
      a.1 = cellStr r.country) ∧
    (∀ r ∈ (rankedRows sub).take 5, ∀ s ∈ (rankedRows sub).drop 5,
      distSq s ≤ distSq r) ∧
    (∀ r : Row, r.gdp_pct_change = none ∨ r.enrollment_pct_change = none →
      annotationOf r = none) ∧
    distSq exRow34 = 25 ∧ distSq exRow11 = 2 ∧
    rankedRows [exRow11, exRow34] = [exRow34, exRow11] ∧
    annotateTop [exRow11, exRow34] = [("A", 3, 4), ("B", 1, 1)] := by
  refine ⟨?_, ?_, ?_, ?_, by norm_num [distSq, exRow34],
    by norm_num [distSq, exRow11],
    by norm_num [rankedRows, List.insertionSort, List.orderedInsert, distGE,
      distSq, exRow34, exRow11],
    by norm_num [annotateTop, rankedRows, List.insertionSort,
      List.orderedInsert, distGE, distSq, exRow34, exRow11, annotationOf,
      cellStr, List.filterMap_cons]⟩
  · exact le_trans (List.length_filterMap_le _ _) (List.length_take_le _ _)
  · intro a ha
    obtain ⟨r, hr, hann⟩ := List.mem_filterMap.mp ha
    refine ⟨r, ?_, ?_⟩
    · exact (List.mem_insertionSort _).mp (List.take_subset _ _ hr)
    · unfold annotationOf at hann
      split at hann
      · next x y hx hy =>
        rw [Option.some.injEq] at hann
        subst hann
        exact ⟨hx, hy, rfl⟩
      · exact absurd hann (by simp)
  · intro r hr s hs
    exact pairwise_take_drop (List.sorted_insertionSort distGE sub) 5 r hr s hs
  · intro r h
    rcases h with h | h
    · cases hy : r.enrollment_pct_change <;> simp [annotationOf, h, hy]
    · cases hx : r.gdp_pct_change <;> simp [annotationOf, h, hx]

/-- C6, witness: the concrete two-row panel annotates at most five rows, and
a row with a null percent-change contributes no annotation. -/
theorem annotate_top_outliers_witness :
    (annotateTop [exRow11, exRow34]).length ≤ 5 ∧ annotationOf exNullRow = none :=
  ⟨(annotate_top_outliers [exRow11, exRow34]).1,
    (annotate_top_outliers []).2.2.2.1 exNullRow (Or.inl rfl)⟩

/-- C7: interactive marker sizes: all 25 when no non-null gdp value exists;
all 35 when the non-null values are all equal; a linear rescale into
[15, 100] when the maximum exceeds the minimum.  In particular
`[100,100,100] ↦ [35,35,35]`, `[none,none] ↦ [25,25]` and
`[0,50,100] ↦ [15, 57.5, 100]`. -/
theorem interactive_size_cases (gdpCol : List (Option ℚ)) :
    (gdpCol.filterMap id = [] → ∀ s ∈ interactiveSizes gdpCol, s = 25) ∧
    (∀ v : ℚ, gdpCol.filterMap id ≠ [] → (∀ x ∈ gdpCol.filterMap id, x = v) →
      ∀ s ∈ interactiveSizes gdpCol, s = 35) ∧
    (∀ (g : ℚ) (gs : List ℚ), gdpCol.filterMap id = g :: gs →
      gs.foldl min g < gs.foldl max g →
      interactiveSizes gdpCol =
        gdpCol.map (rescaleSize (gs.foldl min g) (gs.foldl max g)) ∧
      ∀ s ∈ interactiveSizes gdpCol, 15 ≤ s ∧ s ≤ 100) ∧
    interactiveSizes [some 100, some 100, some 100] = [35, 35, 35] ∧
    interactiveSizes [none, none] = [25, 25] ∧
    interactiveSizes [some 0, some 50, some 100] = [15, 115 / 2, 100] := by
  refine ⟨?_, ?_, ?_, by decide, by decide,
    by norm_num [interactiveSizes, rescaleSize, List.filterMap_cons, min_def,
      max_def]⟩
  · intro h s hs
    rw [interactiveSizes_of_empty gdpCol h] at hs
    obtain ⟨o, -, rfl⟩ := List.mem_map.mp hs
    rfl
  · intro v hne hall s hs
    obtain ⟨g, gs, hgs⟩ := List.exists_cons_of_ne_nil hne
    have hg : g = v := hall g (by rw [hgs]; exact List.mem_cons_self _ _)
    have hgs' : ∀ x ∈ gs, x = v := fun x hx =>
      hall x (by rw [hgs]; exact List.mem_cons_of_mem _ hx)
    have hmin : gs.foldl min g = v := by
      rw [hg]; exact foldl_min_const gs v hgs'
    have hmax : gs.foldl max g = v := by
      rw [hg]; exact foldl_max_const gs v hgs'
    have hnlt : ¬ gs.foldl min g < gs.foldl max g := by
      rw [hmin, hmax]; exact lt_irrefl v
    rw [interactiveSizes_of_flat gdpCol g gs hgs hnlt] at hs
    obtain ⟨o, -, rfl⟩ := List.mem_map.mp hs
    rfl
  · intro g gs hgs hlt
    have heq := interactiveSizes_of_rescale gdpCol g gs hgs hlt
    refine ⟨heq, ?_⟩
    intro s hs
    rw [heq] at hs
    obtain ⟨o, ho, rfl⟩ := List.mem_map.mp hs
    apply rescaleSize_bounds _ _ hlt
    intro x hox
    have hxmem : x ∈ g :: gs := by
      rw [← hgs]
      exact List.mem_filterMap.mpr ⟨o, ho, by rw [hox]; rfl⟩
    exact ⟨foldl_min_le gs g x hxmem, le_foldl_max gs g x hxmem⟩

/-- C7, witness: on the values `[0, 50, 100]` the rescale branch applies,
with minimum 0 and maximum 100. -/
theorem interactive_size_cases_witness :
    interactiveSizes [some 0, some 50, some 100] =
      [some 0, some 50, some 100].map
        (rescaleSize (([50, 100] : List ℚ).foldl min 0)
          (([50, 100] : List ℚ).foldl max 0)) :=
  ((interactive_size_cases [some 0, some 50, some 100]).2.2.1 0 [50, 100]
    (by decide) (by decide)).1

/-- C10: in the interactive renderer, when the filtered non-null gdp values
have maximum strictly above minimum, every row with null gdp is filled with
the minimum before rescaling and therefore gets marker size exactly 15. -/
theorem interactive_null_row_min_size (df : List Row) (years : List Int)
    (g : ℚ) (gs : List ℚ)
    (h : ((df.filter (fun r =>
        match r.year with
        | some y => years.contains y
        | none => false)).map (fun r => r.gdp_numeric)).filterMap id = g :: gs)
    (hlt : gs.foldl min g < gs.foldl max g) :
    ∀ p ∈ make_interactive_plot df years, p.1.gdp_numeric = none → p.2 = 15 := by
  intro p hp hnull
  simp only [make_interactive_plot] at hp
  rw [interactiveSizes_of_rescale _ g gs h hlt, List.map_map] at hp
  have h2 := mem_zip_map_self _ _ p hp
  rw [h2]
  simp only [Function.comp_apply, hnull]
  exact rescaleSize_none _ _

/-- C10, witness: among rows with gdp 0, null and 100 in 2020, the null row
appears in the interactive plot with marker size exactly 15. -/
theorem interactive_null_row_min_size_witness :
    (exNullRow, (15 : ℚ)) ∈
        make_interactive_plot [exZeroRow, exNullRow, exHundredRow] [2020] ∧
    ((exNullRow, (15 : ℚ)) : Row × ℚ).2 = 15 :=
  ⟨by norm_num [make_interactive_plot, interactiveSizes, rescaleSize,
      exZeroRow, exNullRow, exHundredRow, List.filterMap_cons, min_def,
      max_def],
    interactive_null_row_min_size [exZeroRow, exNullRow, exHundredRow] [2020]
      0 [100] (by decide) (by decide) (exNullRow, 15)
      (by norm_num [make_interactive_plot, interactiveSizes, rescaleSize,
        exZeroRow, exNullRow, exHundredRow, List.filterMap_cons, min_def,
        max_def]) rfl⟩

end GdpViz
